import Mathlib

/-
Verification of the Telegram chatbot (src/chatbot.py) against its design
specification.  The bot's handlers are embedded as pure Lean functions:

* the Mongo collections (`users`, `chat_history`, `files`, `searches`)
  become lists of documents inside a `BotState`;
* the process-local `user_cache` dict becomes an association list whose
  values are `Option UserRec` (a Python dict can store `None`);
* `datetime.now()` becomes a counter `now` threaded through the state,
  advanced exactly where the Python code evaluates `datetime.now()`;
* the Gemini models and the Telegram file transport become oracle
  parameters (`Backend`, `Transport`), so that a handler is a function of
  the inbound event, the oracles and the state;
* each handler returns an `HResult`: the successor state, the replies it
  sent, the log records it produced, whether an exception escaped the
  handler uncaught, and counters for backend calls and for reads/inserts
  on the `users` collection.
-/

set_option maxHeartbeats 1000000

namespace Chatbot

/-- A Telegram user as the handlers see it (`update.effective_user`). -/
structure TgUser where
  id : Nat
  first_name : String
  username : Option String
deriving DecidableEq, Repr

/-- A shared contact payload (`update.effective_message.contact`). -/
structure Contact where
  user_id : Nat
  phone_number : String
deriving DecidableEq, Repr

/-- A document of the `users` collection.  Fields a stored document may
lack are `Option`; `start` inserts documents with the first six fields set
and the phone fields absent, and `handle_contact`'s update sets the phone
fields and the status. -/
structure UserRec where
  first_name : String
  username : Option String
  chat_id : Nat
  status : Option String
  registered_at : Option Nat
  last_interaction : Option Nat
  phone_number : Option String
  phone_verified_at : Option Nat
deriving DecidableEq, Repr

/-- A document of the `chat_history` collection. -/
structure ChatExchange where
  user_id : Nat
  input : String
  response : String
  timestamp : Nat
deriving DecidableEq, Repr

/-- A document of the `files` collection. -/
structure FileDoc where
  user_id : Nat
  filename : String
  file_type : String
  analysis : String
  timestamp : Nat
deriving DecidableEq, Repr

/-- A document of the `searches` collection. -/
structure SearchDoc where
  user_id : Nat
  query : List Char
  result : String
  timestamp : Nat
deriving DecidableEq, Repr

/-- The mutable state of the process: the four store collections, the
process-local `user_cache` (an insertion-ordered association list; a key
may be bound to `none` because Python's `find_one` can return `None`), and
the clock used for `datetime.now()`. -/
structure BotState where
  users : List UserRec
  chat_history : List ChatExchange
  files : List FileDoc
  searches : List SearchDoc
  user_cache : List (Nat × Option UserRec)
  now : Nat
deriving DecidableEq, Repr

/-- One text segment of a Gemini candidate (`part.text`). -/
structure GPart where
  text : String
deriving DecidableEq, Repr

/-- The content of a Gemini candidate (`candidate.content.parts`). -/
structure GContent where
  parts : List GPart
deriving DecidableEq, Repr

/-- One ranked candidate of a Gemini response. -/
structure GCandidate where
  content : GContent
deriving DecidableEq, Repr

/-- A Gemini response: a ranked list of candidates. -/
structure GResponse where
  candidates : List GCandidate
deriving DecidableEq, Repr

/-- An outbound reply: plain text, or text with the inline keyboard that
requests a contact share. -/
inductive Reply where
  | text (msg : String)
  | contactButton (msg : String)
deriving DecidableEq, Repr

/-- A log record emitted by a handler. -/
inductive LogEntry where
  | infoContact (c : Contact)
  | errorGenerate (e : String)
  | errorFile (e : String)
deriving DecidableEq, Repr

/-- The observable outcome of running one handler: successor state,
replies sent, log records, whether an uncaught exception escaped the
handler, and counters for backend calls and for `find_one`/`insert_one`
operations on the `users` collection. -/
structure HResult where
  st : BotState
  replies : List Reply
  logs : List LogEntry
  crashed : Bool
  backendCalls : Nat
  userReads : Nat
  userInserts : Nat
deriving DecidableEq, Repr

/-- The Gemini backend as an oracle: `nlp` is `nlp_model.generate_content`
on a prompt string, `vision` is `vision_model.generate_content` on a
prompt, a MIME type and raw bytes.  `.error` models a raised exception. -/
structure Backend where
  nlp : String → Except String GResponse
  vision : String → String → List Nat → Except String GResponse

/-- The Telegram file transport as an oracle: `fetch` models
`get_file` + `download_to_drive` + reading the file (returning the local
path and the bytes; `.error` models a raised exception), and `guessMime`
models `mimetypes.guess_type` on the path. -/
structure Transport where
  fetch : Nat → Except String (String × List Nat)
  guessMime : String → Option String

/-- Lookup in the `user_cache` association list (Python dict access). -/
def cacheGet (c : List (Nat × Option UserRec)) (uid : Nat) : Option (Option UserRec) :=
  match c.find? (fun p => p.1 == uid) with
  | some p => some p.2
  | none => none

/-- `db.users.find_one({"chat_id": uid})`: the first stored document with
the given chat identity. -/
def findOneUser (users : List UserRec) (uid : Nat) : Option UserRec :=
  users.find? (fun r => r.chat_id == uid)

/-- `db.users.update_one({"chat_id": uid}, {"$set": ...})`: rewrite the
first document whose `chat_id` matches, returning the new collection and
`modified_count` (0 when no document matches, and also when the matched
document is left unchanged by the update, as Mongo counts only documents
actually modified). -/
def updateOne (users : List UserRec) (uid : Nat) (f : UserRec → UserRec) :
    List UserRec × Nat :=
  match users with
  | [] => ([], 0)
  | r :: rs =>
    if r.chat_id == uid then
      if f r == r then (r :: rs, 0) else (f r :: rs, 1)
    else
      let p := updateOne rs uid f
      (r :: p.1, p.2)

/-- The `$set` document of `handle_contact`'s update: phone number,
status `"verified"`, and the verification timestamp. -/
def setVerified (phone : String) (t : Nat) (r : UserRec) : UserRec :=
  { r with phone_number := some phone, status := some ("verified"),
           phone_verified_at := some t }

/-- The document `start` inserts for a never-seen identity. -/
def pendingRec (u : TgUser) (t : Nat) : UserRec :=
  { first_name := u.first_name, username := u.username, chat_id := u.id,
    status := some ("pending_contact"), registered_at := some t,
    last_interaction := some t, phone_number := none,
    phone_verified_at := none }

/-- The personalized welcome text sent by `start`. -/
def welcomeMsg (name : String) : String :=
  "Welcome back " ++ name ++ "! Your registration is complete."

/-- The contact-request prompt sent by `request_contact`. -/
def contactPromptMsg : String :=
  "📱 Verification Required\nTo use this bot, please share your phone number for security:"

/-- `start`: the entry-event handler.  Checks the cache first; on a miss
reads the store, inserting a `pending_contact` document for a never-seen
identity (and prompting for the contact), re-prompting when the stored
status is `pending_contact`, and otherwise caching the stored record and
welcoming the user. -/
def start (u : TgUser) (st : BotState) : HResult :=
  match cacheGet st.user_cache u.id with
  | some _ =>
    { st := st, replies := [.text (welcomeMsg u.first_name)], logs := [],
      crashed := false, backendCalls := 0, userReads := 0, userInserts := 0 }
  | none =>
    match findOneUser st.users u.id with
    | none =>
      { st := { st with users := st.users ++ [pendingRec u st.now], now := st.now + 1 },
        replies := [.contactButton contactPromptMsg], logs := [],
        crashed := false, backendCalls := 0, userReads := 1, userInserts := 1 }
    | some existing_user =>
      if existing_user.status.getD ("new") = "pending_contact" then
        { st := st,
          replies := [.text ("Please complete registration by sharing your contact")],
          logs := [], crashed := false, backendCalls := 0, userReads := 1,
          userInserts := 0 }
      else
        { st := { st with user_cache := (u.id, some existing_user) :: st.user_cache },
          replies := [.text (welcomeMsg u.first_name)], logs := [],
          crashed := false, backendCalls := 0, userReads := 1, userInserts := 0 }

/-- `handle_contact`: the contact-share handler.  Logs the contact,
rejects a contact whose identity differs from the sender's, otherwise
updates the matching user document to verified; on `modified_count == 1`
re-reads the document into the cache and confirms, else reports failure. -/
def handle_contact (sender : TgUser) (c : Contact) (st : BotState) : HResult :=
  if c.user_id ≠ sender.id then
    { st := st,
      replies := [.text ("⚠️ Please only share your own contact information.")],
      logs := [.infoContact c], crashed := false, backendCalls := 0,
      userReads := 0, userInserts := 0 }
  else
    let p := updateOne st.users c.user_id (setVerified c.phone_number st.now)
    let st1 : BotState := { st with users := p.1, now := st.now + 1 }
    if p.2 = 1 then
      { st := { st1 with
                user_cache := (c.user_id, findOneUser st1.users c.user_id) :: st1.user_cache },
        replies := [.text ("✅ Phone verification successful!\nYou can now access all bot features.")],
        logs := [.infoContact c], crashed := false, backendCalls := 0,
        userReads := 1, userInserts := 0 }
    else
      { st := st1,
        replies := [.text ("❌ Verification failed. Please try /start again")],
        logs := [.infoContact c], crashed := false, backendCalls := 0,
        userReads := 0, userInserts := 0 }

/-- `extract_text_from_candidates`: the fixed placeholder when there are
no candidates, otherwise the concatenation of every part's text of the
first candidate. -/
def extract_text_from_candidates (response : GResponse) : String :=
  match response.candidates with
  | [] => "No candidates returned."
  | c :: _ => String.join (c.content.parts.map (fun p => p.text))

/-- The instructional wrapper `generate_and_send_response` puts around the
user's message. -/
def chatPrompt (user_message : String) : String :=
  "Respond to this message with a helpful and friendly tone, and include relevant emojis: " ++ user_message

/-- `generate_and_send_response`: calls the text backend inside a
try/except; on success stores the exchange in `chat_history`, replies with
the extracted text and later with the fixed follow-up; on a backend error
logs it and sends the fixed apology, writing nothing. -/
def generate_and_send_response (b : Backend) (user_id : Nat) (user_message : String)
    (st : BotState) : HResult :=
  match b.nlp (chatPrompt user_message) with
  | .error e =>
    { st := st,
      replies := [.text ("❌ Sorry, I couldn't process your request. Please try again.")],
      logs := [.errorGenerate e], crashed := false, backendCalls := 1,
      userReads := 0, userInserts := 0 }
  | .ok raw_response =>
    let gemini_response := extract_text_from_candidates raw_response
    { st := { st with
              chat_history := st.chat_history ++
                [{ user_id := user_id, input := user_message,
                   response := gemini_response, timestamp := st.now }],
              now := st.now + 1 },
      replies := [.text gemini_response,
                  .text ("Is there anything else I can help you with? 😊")],
      logs := [], crashed := false, backendCalls := 1, userReads := 0,
      userInserts := 0 }

/-- `handle_message`: schedules `generate_and_send_response` as a task;
with events delivered serially the observable behaviour is that of the
task body. -/
def handle_message (b : Backend) (user_id : Nat) (user_message : String)
    (st : BotState) : HResult :=
  generate_and_send_response b user_id user_message st

/-- The photo/document part of a file message (`update.message.photo` is
a possibly-empty list; `update.message.document` may be absent). -/
structure FileMessage where
  photo : List Nat
  document : Option Nat
deriving DecidableEq, Repr

/-- The `if photo / elif document / else` branching of `handle_files`: the
file id of the last photo size when a photo is present, else the
document's file id when present. -/
def fileIdOf (msg : FileMessage) : Option Nat :=
  match msg.photo.getLast? with
  | some fid => some fid
  | none => msg.document

/-- `os.path.basename`: the final path component. -/
def basename (path : String) : String :=
  (path.splitOn ("/")).getLastD ("")

/-- `mime_type.split('/')[-1]`: the subtype portion of a MIME string. -/
def mimeSubtype (mime : String) : String :=
  (mime.splitOn ("/")).getLastD ("")

/-- `handle_files`: resolves the attachment's file id (replying
"Unsupported file type" when there is neither photo nor document), fetches
the file, guesses its MIME type (defaulting to a generic binary kind),
asks the vision backend for an analysis, stores a `files` document and
replies with the analysis; any exception from fetching or from the backend
is caught, logged, and answered with the fixed apology. -/
def handle_files (tr : Transport) (b : Backend) (user_id : Nat) (msg : FileMessage)
    (st : BotState) : HResult :=
  match fileIdOf msg with
  | none =>
    { st := st, replies := [.text ("❌ Unsupported file type")], logs := [],
      crashed := false, backendCalls := 0, userReads := 0, userInserts := 0 }
  | some fid =>
    match tr.fetch fid with
    | .error e =>
      { st := st, replies := [.text ("❌ Failed to analyze file")],
        logs := [.errorFile e], crashed := false, backendCalls := 0,
        userReads := 0, userInserts := 0 }
    | .ok fd =>
      let mime_type := (tr.guessMime fd.1).getD ("application/octet-stream")
      match b.vision ("Analyze and describe this content in detail:") mime_type fd.2 with
      | .error e =>
        { st := st, replies := [.text ("❌ Failed to analyze file")],
          logs := [.errorFile e], crashed := false, backendCalls := 1,
          userReads := 0, userInserts := 0 }
      | .ok response =>
        let analysis := extract_text_from_candidates response
        { st := { st with
                  files := st.files ++
                    [{ user_id := user_id, filename := basename fd.1,
                       file_type := mimeSubtype mime_type, analysis := analysis,
                       timestamp := st.now }],
                  now := st.now + 1 },
          replies := [.text ("🔍 Analysis Result:\n" ++ analysis)], logs := [],
          crashed := false, backendCalls := 1, userReads := 0, userInserts := 0 }

/-- Accumulator pass of Python's `str.split()` with no separator: split on
runs of whitespace, discarding empty pieces.  The accumulator holds the
current token reversed. -/
def pySplitGo (acc : List Char) (s : List Char) : List (List Char) :=
  match s with
  | [] => if acc = [] then [] else [acc.reverse]
  | c :: cs =>
    if c.isWhitespace then
      if acc = [] then pySplitGo [] cs else acc.reverse :: pySplitGo [] cs
    else pySplitGo (c :: acc) cs

/-- Python's `str.split()` with no separator, as used by the transport to
tokenize a command message. -/
def pySplit (s : List Char) : List (List Char) :=
  pySplitGo [] s

/-- Modelled from the spec: the transport collaborator delivers a command
with its arguments; for the chat library in use, `context.args` is the
message text split on whitespace with the leading command token dropped. -/
def contextArgs (text : List Char) : List (List Char) :=
  (pySplit text).drop 1

/-- Python's `" ".join(args)`. -/
def pyJoinSpace (args : List (List Char)) : List Char :=
  match args with
  | [] => []
  | [t] => t
  | t :: ts => t ++ ' ' :: pyJoinSpace ts

/-- The prompt `handle_websearch` builds around the query. -/
def websearchPrompt (query : List Char) : String :=
  "Simulate a web search for: " ++ String.mk query ++
    " and provide a concise summary with top links."

/-- `handle_websearch`: joins the command arguments into the query; an
empty query yields the usage message with no backend call; otherwise the
backend is called with no surrounding try/except, so a backend error
escapes the handler uncaught (nothing sent, logged or stored); on success
a `searches` document is stored and the summary is sent. -/
def handle_websearch (b : Backend) (user_id : Nat) (args : List (List Char))
    (st : BotState) : HResult :=
  let query := pyJoinSpace args
  if query = [] then
    { st := st, replies := [.text ("Usage: /websearch <your query here>")],
      logs := [], crashed := false, backendCalls := 0, userReads := 0,
      userInserts := 0 }
  else
    match b.nlp (websearchPrompt query) with
    | .error _ =>
      { st := st, replies := [], logs := [], crashed := true,
        backendCalls := 1, userReads := 0, userInserts := 0 }
    | .ok raw_response =>
      let gemini_response := extract_text_from_candidates raw_response
      { st := { st with
                searches := st.searches ++
                  [{ user_id := user_id, query := query,
                     result := gemini_response, timestamp := st.now }],
                now := st.now + 1 },
        replies := [.text ("🌐 Search Results:\n" ++ gemini_response)],
        logs := [], crashed := false, backendCalls := 1, userReads := 0,
        userInserts := 0 }

/-- An inbound registration-flow event: an entry command or a contact
share. -/
inductive Event where
  | entry (u : TgUser)
  | contact (sender : TgUser) (c : Contact)
deriving Repr

/-- The state transition of one registration-flow event. -/
def step (st : BotState) (e : Event) : BotState :=
  match e with
  | .entry u => (start u st).st
  | .contact sender c => (handle_contact sender c st).st

/-- The initial state: empty collections, empty cache. -/
def initState : BotState :=
  { users := [], chat_history := [], files := [], searches := [],
    user_cache := [], now := 0 }

/-- Run a sequence of registration-flow events from a state. -/
def runFrom (st : BotState) (evs : List Event) : BotState :=
  evs.foldl step st

/-- Run a sequence of registration-flow events from the initial state. -/
def run (evs : List Event) : BotState :=
  runFrom initState evs

/-- Replace the `users` collection and the cache of a handler result's
state (used to express that the conversational handlers neither read nor
write them). -/
def withUC (users' : List UserRec) (cache' : List (Nat × Option UserRec))
    (r : HResult) : HResult :=
  { r with st := { r.st with users := users', user_cache := cache' } }

/-- A backend whose every call raises. -/
def errBackend : Backend :=
  { nlp := fun _ => .error ("backend failure"),
    vision := fun _ _ _ => .error ("backend failure") }

/-- A backend that always returns one single-part candidate. -/
def okBackend : Backend :=
  { nlp := fun _ => .ok { candidates := [{ content := { parts := [{ text := "ok" }] } }] },
    vision := fun _ _ _ => .ok { candidates := [{ content := { parts := [{ text := "ok" }] } }] } }

/-- A transport whose fetches fail. -/
def errTransport : Transport :=
  { fetch := fun _ => .error ("download failure"), guessMime := fun _ => none }

/-- A transport that returns a fixed JPEG file. -/
def okTransport : Transport :=
  { fetch := fun _ => .ok ("/tmp/file_7.jpg", [1, 2, 3]),
    guessMime := fun _ => some ("image/jpeg") }

/-- Sample user for concrete witness evaluations. -/
def ada : TgUser :=
  { id := 42, first_name := "Ada", username := none }

/-- Sample contact payload for concrete witness evaluations. -/
def adaContact : Contact :=
  { user_id := 42, phone_number := "+1555" }

/-- The document stored for identity 42 after an entry event followed by a
successful contact share, both from the initial state. -/
def adaVerifiedRec : UserRec :=
  { first_name := "Ada", username := none, chat_id := 42,
    status := some ("verified"), registered_at := some 0,
    last_interaction := some 0, phone_number := some ("+1555"),
    phone_verified_at := some 1 }

/-- A stored document for identity 42 whose status field is missing. -/
def adaNoStatusRec : UserRec :=
  { first_name := "Ada", username := none, chat_id := 42,
    status := none, registered_at := none, last_interaction := none,
    phone_number := none, phone_verified_at := none }

/-- A state whose store holds only a document with no status field. -/
def noStatusState : BotState :=
  { users := [adaNoStatusRec], chat_history := [], files := [],
    searches := [], user_cache := [], now := 5 }

/-- Status discipline: every stored user document is either pending or
verified (the only statuses this code ever writes). -/
def StatusOK (users : List UserRec) : Prop :=
  ∀ r ∈ users, r.status = some ("pending_contact") ∨ r.status = some ("verified")

/-- Uniqueness: at most one user document per chat identity. -/
def AtMostOne (users : List UserRec) : Prop :=
  ∀ uid : Nat, users.countP (fun r => r.chat_id == uid) ≤ 1

/-- Cache soundness: every cache binding holds (non-`None`) the document
currently stored for its key, and that document's status is verified. -/
def CacheOK (st : BotState) : Prop :=
  ∀ u v, cacheGet st.user_cache u = some v →
    ∃ r, v = some r ∧ findOneUser st.users u = some r ∧ r.status = some ("verified")

/-- The registration-flow invariant. -/
def Inv (st : BotState) : Prop :=
  AtMostOne st.users ∧ StatusOK st.users ∧ CacheOK st

end Chatbot

namespace Chatbot

theorem cacheGet_cons (k : Nat) (v : Option UserRec) (c : List (Nat × Option UserRec))
    (u : Nat) : cacheGet ((k, v) :: c) u = if k = u then some v else cacheGet c u := by
  by_cases h : k = u <;> simp [cacheGet, List.find?_cons, h]

theorem find?_append_some {α : Type} {p : α → Bool} {l l' : List α} {x : α}
    (h : l.find? p = some x) : (l ++ l').find? p = some x := by
  simp [List.find?_append, h]

theorem updateOne_cons (r : UserRec) (rs : List UserRec) (uid : Nat)
    (f : UserRec → UserRec) :
    updateOne (r :: rs) uid f =
      if r.chat_id = uid then
        (if f r = r then (r :: rs, 0) else (f r :: rs, 1))
      else (r :: (updateOne rs uid f).1, (updateOne rs uid f).2) := by
  by_cases hc : r.chat_id = uid
  · by_cases he : f r = r <;> simp [updateOne, hc, he]
  · simp [updateOne, hc]

theorem updateOne_snd_zero_or_one (users : List UserRec) (uid : Nat)
    (f : UserRec → UserRec) :
    (updateOne users uid f).2 = 0 ∨ (updateOne users uid f).2 = 1 := by
  induction users with
  | nil => exact Or.inl rfl
  | cons r rs ih =>
    rw [updateOne_cons]
    by_cases hc : r.chat_id = uid
    · by_cases he : f r = r <;> simp [hc, he]
    · simpa [hc] using ih

theorem updateOne_zero_eq {users : List UserRec} {uid : Nat} {f : UserRec → UserRec}
    (h : (updateOne users uid f).2 = 0) : (updateOne users uid f).1 = users := by
  induction users with
  | nil => rfl
  | cons r rs ih =>
    rw [updateOne_cons] at h ⊢
    by_cases hc : r.chat_id = uid
    · by_cases he : f r = r
      · rw [if_pos hc, if_pos he]
      · rw [if_pos hc, if_neg he] at h
        exact absurd h Nat.one_ne_zero
    · rw [if_neg hc] at h ⊢
      show r :: (updateOne rs uid f).1 = r :: rs
      rw [ih h]

theorem updateOne_countP (users : List UserRec) (uid : Nat) (f : UserRec → UserRec)
    (hf : ∀ r, (f r).chat_id = r.chat_id) (v : Nat) :
    (updateOne users uid f).1.countP (fun r => r.chat_id == v) =
      users.countP (fun r => r.chat_id == v) := by
  induction users with
  | nil => rfl
  | cons r rs ih =>
    rw [updateOne_cons]
    by_cases hc : r.chat_id = uid
    · by_cases he : f r = r
      · simp [hc, he]
      · simp [hc, he, List.countP_cons, hf]
    · simp [hc, List.countP_cons, ih]

theorem updateOne_find_ne (users : List UserRec) (uid : Nat) (f : UserRec → UserRec)
    (hf : ∀ r, (f r).chat_id = r.chat_id) (v : Nat) (hne : v ≠ uid) :
    (updateOne users uid f).1.find? (fun r => r.chat_id == v) =
      users.find? (fun r => r.chat_id == v) := by
  induction users with
  | nil => rfl
  | cons r rs ih =>
    rw [updateOne_cons]
    by_cases hc : r.chat_id = uid
    · have hrv : ¬ r.chat_id = v := by
        intro hv; rw [hv] at hc; exact hne hc
      have h2 : (r.chat_id == v) = false := by simpa using hrv
      have h1 : ((f r).chat_id == v) = false := by rw [hf r]; exact h2
      by_cases he : f r = r
      · rw [if_pos hc, if_pos he]
      · rw [if_pos hc, if_neg he]
        show List.find? (fun r => r.chat_id == v) (f r :: rs) =
          List.find? (fun r => r.chat_id == v) (r :: rs)
        rw [List.find?_cons, List.find?_cons, h1, h2]
    · rw [if_neg hc]
      show List.find? (fun r => r.chat_id == v) (r :: (updateOne rs uid f).1) =
        List.find? (fun r => r.chat_id == v) (r :: rs)
      rw [List.find?_cons, List.find?_cons]
      cases hrv : (r.chat_id == v) <;> simp [ih]

theorem updateOne_one_find (users : List UserRec) (uid : Nat) (f : UserRec → UserRec)
    (hf : ∀ r, (f r).chat_id = r.chat_id)
    (h : (updateOne users uid f).2 = 1) :
    ∃ r, users.find? (fun x => x.chat_id == uid) = some r ∧
      (updateOne users uid f).1.find? (fun x => x.chat_id == uid) = some (f r) := by
  induction users with
  | nil => exact absurd h Nat.zero_ne_one
  | cons r rs ih =>
    rw [updateOne_cons] at h ⊢
    by_cases hc : r.chat_id = uid
    · by_cases he : f r = r
      · rw [if_pos hc, if_pos he] at h
        exact absurd h Nat.zero_ne_one
      · refine ⟨r, ?_, ?_⟩
        · simp [List.find?_cons, hc]
        · rw [if_pos hc, if_neg he]
          show List.find? (fun x => x.chat_id == uid) (f r :: rs) = some (f r)
          have h1 : ((f r).chat_id == uid) = true := by simp [hf, hc]
          rw [List.find?_cons, h1]
    · rw [if_neg hc] at h ⊢
      have h' : (updateOne rs uid f).2 = 1 := h
      obtain ⟨r0, h1, h2⟩ := ih h'
      have hru : (r.chat_id == uid) = false := by simpa using hc
      refine ⟨r0, ?_, ?_⟩
      · rw [List.find?_cons, hru]
        exact h1
      · show List.find? (fun x => x.chat_id == uid)
          (r :: (updateOne rs uid f).1) = some (f r0)
        rw [List.find?_cons, hru]
        exact h2

theorem updateOne_mem (users : List UserRec) (uid : Nat) (f : UserRec → UserRec)
    {x : UserRec} (hx : x ∈ (updateOne users uid f).1) :
    x ∈ users ∨ ∃ r, r ∈ users ∧ x = f r := by
  induction users with
  | nil => exact absurd (hx : x ∈ ([] : List UserRec)) (List.not_mem_nil x)
  | cons r rs ih =>
    rw [updateOne_cons] at hx
    by_cases hc : r.chat_id = uid
    · by_cases he : f r = r
      · rw [if_pos hc, if_pos he] at hx
        exact Or.inl hx
      · rw [if_pos hc, if_neg he] at hx
        rcases List.mem_cons.mp (hx : x ∈ f r :: rs) with hxx | hxx
        · exact Or.inr ⟨r, List.mem_cons_self r rs, hxx⟩
        · exact Or.inl (List.mem_cons_of_mem r hxx)
    · rw [if_neg hc] at hx
      rcases List.mem_cons.mp (hx : x ∈ r :: (updateOne rs uid f).1) with hxx | hxx
      · exact Or.inl (by rw [hxx]; exact List.mem_cons_self r rs)
      · rcases ih hxx with hmem | ⟨r0, hr0, hxr0⟩
        · exact Or.inl (List.mem_cons_of_mem r hmem)
        · exact Or.inr ⟨r0, List.mem_cons_of_mem r hr0, hxr0⟩

theorem findOneUser_chat_id {users : List UserRec} {uid : Nat} {r : UserRec}
    (h : findOneUser users uid = some r) : r.chat_id = uid := by
  have h0 : List.find? (fun x => x.chat_id == uid) users = some r := h
  have h' := List.find?_some h0
  simpa using h'

theorem findOneUser_mem {users : List UserRec} {uid : Nat} {r : UserRec}
    (h : findOneUser users uid = some r) : r ∈ users :=
  List.mem_of_find?_eq_some h

theorem statusOK_of_find {users : List UserRec} (h2 : StatusOK users) {uid : Nat}
    {r : UserRec} (hf : findOneUser users uid = some r)
    (hs : ¬ r.status.getD ("new") = "pending_contact") : r.status = some ("verified") := by
  rcases h2 r (findOneUser_mem hf) with h | h
  · exact absurd (by rw [h]; rfl) hs
  · exact h

theorem countP_zero_of_find_none {users : List UserRec} {uid : Nat}
    (h : findOneUser users uid = none) :
    users.countP (fun r => r.chat_id == uid) = 0 := by
  rw [List.countP_eq_zero]
  exact List.find?_eq_none.mp h

theorem inv_init : Inv initState := by
  refine ⟨fun uid => ?_, fun r hr => ?_, fun u v hv => ?_⟩
  · simp [initState]
  · exact absurd hr (List.not_mem_nil r)
  · simp [initState, cacheGet] at hv

theorem start_st_cached {u : TgUser} {st : BotState} {v : Option UserRec}
    (hcv : cacheGet st.user_cache u.id = some v) : (start u st).st = st := by
  simp only [start, hcv]

theorem start_st_insert {u : TgUser} {st : BotState}
    (hcv : cacheGet st.user_cache u.id = none)
    (hf : findOneUser st.users u.id = none) :
    (start u st).st =
      { st with users := st.users ++ [pendingRec u st.now], now := st.now + 1 } := by
  simp only [start, hcv, hf]

theorem start_st_pending {u : TgUser} {st : BotState} {ex : UserRec}
    (hcv : cacheGet st.user_cache u.id = none)
    (hf : findOneUser st.users u.id = some ex)
    (hs : ex.status.getD ("new") = "pending_contact") : (start u st).st = st := by
  simp only [start, hcv, hf, if_pos hs]

theorem start_st_complete {u : TgUser} {st : BotState} {ex : UserRec}
    (hcv : cacheGet st.user_cache u.id = none)
    (hf : findOneUser st.users u.id = some ex)
    (hs : ¬ ex.status.getD ("new") = "pending_contact") :
    (start u st).st =
      { st with user_cache := (u.id, some ex) :: st.user_cache } := by
  simp only [start, hcv, hf, if_neg hs]

theorem handle_contact_st_mismatch {sender : TgUser} {c : Contact} {st : BotState}
    (hid : c.user_id ≠ sender.id) : (handle_contact sender c st).st = st := by
  simp only [handle_contact, if_pos hid]

theorem handle_contact_st_ok {sender : TgUser} {c : Contact} {st : BotState}
    (hid : ¬ c.user_id ≠ sender.id)
    (hm : (updateOne st.users c.user_id (setVerified c.phone_number st.now)).2 = 1) :
    (handle_contact sender c st).st =
      { st with
        users := (updateOne st.users c.user_id (setVerified c.phone_number st.now)).1,
        user_cache :=
          (c.user_id,
            findOneUser
              (updateOne st.users c.user_id (setVerified c.phone_number st.now)).1
              c.user_id) :: st.user_cache,
        now := st.now + 1 } := by
  simp only [handle_contact, if_neg hid]
  rw [if_pos hm]

theorem handle_contact_st_fail {sender : TgUser} {c : Contact} {st : BotState}
    (hid : ¬ c.user_id ≠ sender.id)
    (hm : ¬ (updateOne st.users c.user_id (setVerified c.phone_number st.now)).2 = 1) :
    (handle_contact sender c st).st =
      { st with
        users := (updateOne st.users c.user_id (setVerified c.phone_number st.now)).1,
        now := st.now + 1 } := by
  simp only [handle_contact, if_neg hid]
  rw [if_neg hm]

theorem inv_step (st : BotState) (e : Event) (h : Inv st) : Inv (step st e) := by
  obtain ⟨h1, h2, h3⟩ := h
  cases e with
  | entry u =>
    show Inv (start u st).st
    cases hcv : cacheGet st.user_cache u.id with
    | some v =>
      rw [start_st_cached hcv]
      exact ⟨h1, h2, h3⟩
    | none =>
      cases hf : findOneUser st.users u.id with
      | none =>
        rw [start_st_insert hcv hf]
        refine ⟨fun uid => ?_, fun r hr => ?_, fun u' v' hv => ?_⟩
        · show (st.users ++ [pendingRec u st.now]).countP
            (fun r => r.chat_id == uid) ≤ 1
          rw [List.countP_append]
          by_cases hu : uid = u.id
          · subst hu
            rw [countP_zero_of_find_none hf]
            simp [pendingRec]
          · have hz : List.countP (fun r => r.chat_id == uid)
                [pendingRec u st.now] = 0 := by
              simp [pendingRec]
              intro hq
              exact hu hq.symm
            rw [hz]
            simpa using h1 uid
        · rcases List.mem_append.mp hr with hmem | hmem
          · exact h2 r hmem
          · rcases List.mem_singleton.mp hmem with rfl
            exact Or.inl rfl
        · obtain ⟨r, hv1, hfind, hst⟩ := h3 u' v' hv
          exact ⟨r, hv1, find?_append_some hfind, hst⟩
      | some ex =>
        by_cases hs : ex.status.getD ("new") = "pending_contact"
        · rw [start_st_pending hcv hf hs]
          exact ⟨h1, h2, h3⟩
        · rw [start_st_complete hcv hf hs]
          refine ⟨h1, h2, fun u' v' hv => ?_⟩
          rw [show ({ st with user_cache := (u.id, some ex) :: st.user_cache } :
              BotState).user_cache = (u.id, some ex) :: st.user_cache from rfl,
            cacheGet_cons] at hv
          by_cases hu : u.id = u'
          · rw [if_pos hu] at hv
            injection hv with hv'
            refine ⟨ex, hv'.symm, ?_, statusOK_of_find h2 hf hs⟩
            rw [← hu]
            exact hf
          · rw [if_neg hu] at hv
            exact h3 u' v' hv
  | contact sender c =>
    show Inv (handle_contact sender c st).st
    by_cases hid : c.user_id ≠ sender.id
    · rw [handle_contact_st_mismatch hid]
      exact ⟨h1, h2, h3⟩
    · by_cases hm :
          (updateOne st.users c.user_id (setVerified c.phone_number st.now)).2 = 1
      · rw [handle_contact_st_ok hid hm]
        refine ⟨fun uid => ?_, fun r hr => ?_, fun u' v' hv => ?_⟩
        · show ((updateOne st.users c.user_id
              (setVerified c.phone_number st.now)).1).countP
              (fun r => r.chat_id == uid) ≤ 1
          rw [updateOne_countP st.users c.user_id
            (setVerified c.phone_number st.now) (fun r => rfl) uid]
          exact h1 uid
        · rcases updateOne_mem st.users c.user_id
              (setVerified c.phone_number st.now) hr with hmem | ⟨r0, _, hxr0⟩
          · exact h2 r hmem
          · right
            rw [hxr0]
            rfl
        · rw [show ({ st with
              users := (updateOne st.users c.user_id
                (setVerified c.phone_number st.now)).1,
              user_cache :=
                (c.user_id,
                  findOneUser
                    (updateOne st.users c.user_id
                      (setVerified c.phone_number st.now)).1
                    c.user_id) :: st.user_cache,
              now := st.now + 1 } : BotState).user_cache =
              (c.user_id,
                findOneUser
                  (updateOne st.users c.user_id
                    (setVerified c.phone_number st.now)).1
                  c.user_id) :: st.user_cache from rfl, cacheGet_cons] at hv
          by_cases hu : c.user_id = u'
          · rw [if_pos hu] at hv
            injection hv with hv'
            obtain ⟨r0, hfind0, hfind1⟩ := updateOne_one_find st.users c.user_id
              (setVerified c.phone_number st.now) (fun r => rfl) hm
            refine ⟨setVerified c.phone_number st.now r0, ?_, ?_, rfl⟩
            · rw [← hv']
              exact hfind1
            · rw [← hu]
              exact hfind1
          · rw [if_neg hu] at hv
            obtain ⟨r, hv1, hfind, hst⟩ := h3 u' v' hv
            refine ⟨r, hv1, ?_, hst⟩
            show (updateOne st.users c.user_id
              (setVerified c.phone_number st.now)).1.find?
                (fun x => x.chat_id == u') = some r
            rw [updateOne_find_ne st.users c.user_id
              (setVerified c.phone_number st.now) (fun r => rfl) u'
              (fun hh => hu hh.symm)]
            exact hfind
      · rw [handle_contact_st_fail hid hm]
        have h0 : (updateOne st.users c.user_id
            (setVerified c.phone_number st.now)).2 = 0 := by
          rcases updateOne_snd_zero_or_one st.users c.user_id
            (setVerified c.phone_number st.now) with h | h
          · exact h
          · exact absurd h hm
        have he := updateOne_zero_eq h0
        rw [he]
        exact ⟨h1, h2, fun u' v' hv => h3 u' v' hv⟩

theorem inv_runFrom (evs : List Event) (st : BotState) (h : Inv st) :
    Inv (runFrom st evs) := by
  induction evs generalizing st with
  | nil => exact h
  | cons e es ih => exact ih (step st e) (inv_step st e h)

theorem inv_run (evs : List Event) : Inv (run evs) :=
  inv_runFrom evs initState inv_init

theorem cacheGet_cons_isSome {k : Nat} {v : Option UserRec}
    {cc : List (Nat × Option UserRec)} {x : Nat}
    (h : (cacheGet cc x).isSome = true) :
    (cacheGet ((k, v) :: cc) x).isSome = true := by
  rw [cacheGet_cons]
  by_cases hk : k = x
  · rw [if_pos hk]
    rfl
  · rw [if_neg hk]
    exact h

theorem step_cache_isSome (st : BotState) (e : Event) (x : Nat)
    (h : (cacheGet st.user_cache x).isSome = true) :
    (cacheGet (step st e).user_cache x).isSome = true := by
  cases e with
  | entry u =>
    show (cacheGet (start u st).st.user_cache x).isSome = true
    cases hcv : cacheGet st.user_cache u.id with
    | some v =>
      rw [start_st_cached hcv]
      exact h
    | none =>
      cases hf : findOneUser st.users u.id with
      | none =>
        rw [start_st_insert hcv hf]
        exact h
      | some ex =>
        by_cases hs : ex.status.getD ("new") = "pending_contact"
        · rw [start_st_pending hcv hf hs]
          exact h
        · rw [start_st_complete hcv hf hs]
          exact cacheGet_cons_isSome h
  | contact sender c =>
    show (cacheGet (handle_contact sender c st).st.user_cache x).isSome = true
    by_cases hid : c.user_id ≠ sender.id
    · rw [handle_contact_st_mismatch hid]
      exact h
    · by_cases hm :
          (updateOne st.users c.user_id (setVerified c.phone_number st.now)).2 = 1
      · rw [handle_contact_st_ok hid hm]
        exact cacheGet_cons_isSome h
      · rw [handle_contact_st_fail hid hm]
        exact h

theorem runFrom_cache_isSome (evs : List Event) (st : BotState) (x : Nat)
    (h : (cacheGet st.user_cache x).isSome = true) :
    (cacheGet (runFrom st evs).user_cache x).isSome = true := by
  induction evs generalizing st with
  | nil => exact h
  | cons e es ih => exact ih (step st e) (step_cache_isSome st e x h)

theorem start_cached_eq {u : TgUser} {st : BotState} {v : Option UserRec}
    (hcv : cacheGet st.user_cache u.id = some v) :
    start u st =
      { st := st, replies := [.text (welcomeMsg u.first_name)], logs := [],
        crashed := false, backendCalls := 0, userReads := 0, userInserts := 0 } := by
  simp only [start, hcv]

theorem start_insert_eq {u : TgUser} {st : BotState}
    (hcv : cacheGet st.user_cache u.id = none)
    (hf : findOneUser st.users u.id = none) :
    start u st =
      { st := { st with users := st.users ++ [pendingRec u st.now], now := st.now + 1 },
        replies := [.contactButton contactPromptMsg], logs := [],
        crashed := false, backendCalls := 0, userReads := 1, userInserts := 1 } := by
  simp only [start, hcv, hf]

theorem start_pending_eq {u : TgUser} {st : BotState} {ex : UserRec}
    (hcv : cacheGet st.user_cache u.id = none)
    (hf : findOneUser st.users u.id = some ex)
    (hs : ex.status.getD ("new") = "pending_contact") :
    start u st =
      { st := st,
        replies := [.text ("Please complete registration by sharing your contact")],
        logs := [], crashed := false, backendCalls := 0, userReads := 1,
        userInserts := 0 } := by
  simp only [start, hcv, hf, if_pos hs]

theorem start_complete_eq {u : TgUser} {st : BotState} {ex : UserRec}
    (hcv : cacheGet st.user_cache u.id = none)
    (hf : findOneUser st.users u.id = some ex)
    (hs : ¬ ex.status.getD ("new") = "pending_contact") :
    start u st =
      { st := { st with user_cache := (u.id, some ex) :: st.user_cache },
        replies := [.text (welcomeMsg u.first_name)], logs := [],
        crashed := false, backendCalls := 0, userReads := 1, userInserts := 0 } := by
  simp only [start, hcv, hf, if_neg hs]

theorem handle_contact_mismatch_eq {sender : TgUser} {c : Contact} {st : BotState}
    (hid : c.user_id ≠ sender.id) :
    handle_contact sender c st =
      { st := st,
        replies := [.text ("⚠️ Please only share your own contact information.")],
        logs := [.infoContact c], crashed := false, backendCalls := 0,
        userReads := 0, userInserts := 0 } := by
  simp only [handle_contact, if_pos hid]

theorem handle_contact_ok_eq {sender : TgUser} {c : Contact} {st : BotState}
    (hid : ¬ c.user_id ≠ sender.id)
    (hm : (updateOne st.users c.user_id (setVerified c.phone_number st.now)).2 = 1) :
    handle_contact sender c st =
      { st := { st with
            users := (updateOne st.users c.user_id
              (setVerified c.phone_number st.now)).1,
            user_cache :=
              (c.user_id,
                findOneUser
                  (updateOne st.users c.user_id
                    (setVerified c.phone_number st.now)).1
                  c.user_id) :: st.user_cache,
            now := st.now + 1 },
        replies := [.text ("✅ Phone verification successful!\nYou can now access all bot features.")],
        logs := [.infoContact c], crashed := false, backendCalls := 0,
        userReads := 1, userInserts := 0 } := by
  simp only [handle_contact, if_neg hid]
  rw [if_pos hm]

theorem handle_contact_fail_eq {sender : TgUser} {c : Contact} {st : BotState}
    (hid : ¬ c.user_id ≠ sender.id)
    (hm : ¬ (updateOne st.users c.user_id (setVerified c.phone_number st.now)).2 = 1) :
    handle_contact sender c st =
      { st := { st with
            users := (updateOne st.users c.user_id
              (setVerified c.phone_number st.now)).1,
            now := st.now + 1 },
        replies := [.text ("❌ Verification failed. Please try /start again")],
        logs := [.infoContact c], crashed := false, backendCalls := 0,
        userReads := 0, userInserts := 0 } := by
  simp only [handle_contact, if_neg hid]
  rw [if_neg hm]

theorem pySplitGo_tokens (s : List Char) : ∀ acc : List Char,
    (∀ ch ∈ acc, ch.isWhitespace = false) →
    ∀ w ∈ pySplitGo acc s, w ≠ [] ∧ ∀ ch ∈ w, ch.isWhitespace = false := by
  induction s with
  | nil =>
    intro acc hacc w hw
    simp only [pySplitGo] at hw
    by_cases ha : acc = []
    · rw [if_pos ha] at hw
      exact absurd hw (List.not_mem_nil w)
    · rw [if_neg ha] at hw
      rcases List.mem_singleton.mp hw with rfl
      refine ⟨by simpa using ha, fun ch hch => hacc ch (List.mem_reverse.mp hch)⟩
  | cons c cs ih =>
    intro acc hacc w hw
    simp only [pySplitGo] at hw
    by_cases hws : c.isWhitespace = true
    · rw [if_pos hws] at hw
      by_cases ha : acc = []
      · rw [if_pos ha] at hw
        exact ih [] (fun ch hch => absurd hch (List.not_mem_nil ch)) w hw
      · rw [if_neg ha] at hw
        rcases List.mem_cons.mp hw with rfl | hw2
        · exact ⟨by simpa using ha, fun ch hch => hacc ch (List.mem_reverse.mp hch)⟩
        · exact ih [] (fun ch hch => absurd hch (List.not_mem_nil ch)) w hw2
    · rw [if_neg hws] at hw
      refine ih (c :: acc) ?_ w hw
      intro ch hch
      rcases List.mem_cons.mp hch with rfl | hch2
      · simpa using hws
      · exact hacc ch hch2

theorem contextArgs_tokens (text : List Char) :
    ∀ w ∈ contextArgs text, w ≠ [] ∧ ∀ ch ∈ w, ch.isWhitespace = false := by
  intro w hw
  exact pySplitGo_tokens text [] (fun ch hch => absurd hch (List.not_mem_nil ch)) w
    (List.mem_of_mem_drop hw)

theorem mem_pyJoinSpace_head {t : List Char} {ts : List (List Char)} {ch : Char}
    (h : ch ∈ t) : ch ∈ pyJoinSpace (t :: ts) := by
  cases ts with
  | nil => exact h
  | cons t2 ts2 =>
    show ch ∈ t ++ ' ' :: pyJoinSpace (t2 :: ts2)
    exact List.mem_append.mpr (Or.inl h)

theorem args_nil_of_ws (args : List (List Char))
    (htok : ∀ w ∈ args, w ≠ [] ∧ ∀ ch ∈ w, ch.isWhitespace = false)
    (hws : ∀ ch ∈ pyJoinSpace args, ch.isWhitespace = true) : args = [] := by
  cases args with
  | nil => rfl
  | cons t ts =>
    obtain ⟨hne, hfree⟩ := htok t (List.mem_cons_self t ts)
    cases t with
    | nil => exact absurd rfl hne
    | cons c cr =>
      have hmem : c ∈ pyJoinSpace ((c :: cr) :: ts) :=
        mem_pyJoinSpace_head (List.mem_cons_self c cr)
      have ht := hws c hmem
      have hf := hfree c (List.mem_cons_self c cr)
      rw [ht] at hf
      exact Bool.noConfusion hf

theorem handle_websearch_usage_eq (b : Backend) (uid : Nat)
    (args : List (List Char)) (st : BotState) (hq : pyJoinSpace args = []) :
    handle_websearch b uid args st =
      { st := st, replies := [.text ("Usage: /websearch <your query here>")],
        logs := [], crashed := false, backendCalls := 0, userReads := 0,
        userInserts := 0 } := by
  simp only [handle_websearch]
  rw [if_pos hq]

/-- Claim C1: in every state reachable by a sequence of entry events and
contact-share events from the initial state, every entry of the user cache
holds a document that is currently stored for that key, and that stored
document has status verified; hence the cache never reports
registration-complete for a user whose authoritative record is not
verified. -/
theorem claim_C1_cache_soundness (evs : List Event) (u : Nat) (v : Option UserRec)
    (hc : cacheGet (run evs).user_cache u = some v) :
    ∃ r, v = some r ∧ findOneUser (run evs).users u = some r ∧
      r.status = some ("verified") :=
  (inv_run evs).2.2 u v hc

/-- Witness for C1: after an entry event and a successful contact share for
identity 42, the cache entry for 42 is the stored verified document. -/
theorem claim_C1_cache_soundness_witness :
    ∃ r, (some adaVerifiedRec : Option UserRec) = some r ∧
      findOneUser (run [Event.entry ada, Event.contact ada adaContact]).users 42 =
        some r ∧
      r.status = some ("verified") :=
  claim_C1_cache_soundness [Event.entry ada, Event.contact ada adaContact] 42
    (some adaVerifiedRec) (by decide)

/-- Claim C2: a contact-share event whose embedded contact identity differs
from the sending user identity produces only the warning reply: the state
(store and cache alike) is returned unchanged, and no store read, store
write or backend call happens. -/
theorem claim_C2_mismatch_rejected (sender : TgUser) (c : Contact) (st : BotState)
    (hid : c.user_id ≠ sender.id) :
    handle_contact sender c st =
      { st := st,
        replies := [.text ("⚠️ Please only share your own contact information.")],
        logs := [.infoContact c], crashed := false, backendCalls := 0,
        userReads := 0, userInserts := 0 } :=
  handle_contact_mismatch_eq hid

/-- Witness for C2: sender 8 relaying the contact of user 7 is rejected
with no state change. -/
theorem claim_C2_mismatch_rejected_witness :
    handle_contact { id := 8, first_name := "Bob", username := none }
        { user_id := 7, phone_number := "+1" } initState =
      { st := initState,
        replies := [.text ("⚠️ Please only share your own contact information.")],
        logs := [.infoContact { user_id := 7, phone_number := "+1" }],
        crashed := false, backendCalls := 0, userReads := 0, userInserts := 0 } :=
  claim_C2_mismatch_rejected { id := 8, first_name := "Bob", username := none }
    { user_id := 7, phone_number := "+1" } initState (by decide)

/-- Claim C3: (a) every reachable state stores at most one user document
per chat identity; (b) an entry event for a never-seen identity performs
exactly one insert, of a pending-contact document, and one contact-request
prompt; (c) an immediately following second entry event for the same
identity takes the pending-contact branch and performs no insert. -/
theorem claim_C3_unique_registration :
    (∀ evs : List Event, AtMostOne (run evs).users) ∧
    (∀ (st : BotState) (u : TgUser),
      cacheGet st.user_cache u.id = none →
      findOneUser st.users u.id = none →
      start u st =
        { st :=
            { st with
              users := st.users ++ [pendingRec u st.now],
              now := st.now + 1 },
          replies := [.contactButton contactPromptMsg], logs := [],
          crashed := false, backendCalls := 0, userReads := 1, userInserts := 1 } ∧
      (pendingRec u st.now).status = some ("pending_contact") ∧
      start u (start u st).st =
        { st := (start u st).st,
          replies := [.text ("Please complete registration by sharing your contact")],
          logs := [], crashed := false, backendCalls := 0, userReads := 1,
          userInserts := 0 }) := by
  constructor
  · intro evs
    exact (inv_run evs).1
  · intro st u hcv hf
    refine ⟨start_insert_eq hcv hf, rfl, ?_⟩
    have hst : (start u st).st =
        { st with users := st.users ++ [pendingRec u st.now], now := st.now + 1 } :=
      start_st_insert hcv hf
    rw [hst]
    have hcv2 : cacheGet ({ st with
        users := st.users ++ [pendingRec u st.now],
        now := st.now + 1 } : BotState).user_cache u.id = none := hcv
    have hf' : st.users.find? (fun r => r.chat_id == u.id) = none := hf
    have hf2 : findOneUser (st.users ++ [pendingRec u st.now]) u.id
        = some (pendingRec u st.now) := by
      show (st.users ++ [pendingRec u st.now]).find? (fun r => r.chat_id == u.id)
        = some (pendingRec u st.now)
      rw [List.find?_append, hf']
      simp [List.find?_cons, pendingRec]
    exact start_pending_eq hcv2 hf2 rfl

/-- Witness for C3: concrete first and second entry events for identity 42
on the empty initial state insert once, then re-prompt with no insert. -/
theorem claim_C3_unique_registration_witness :
    (start ada initState).userInserts = 1 ∧
    (start ada (start ada initState).st).userInserts = 0 := by
  have h := claim_C3_unique_registration.2 initState ada rfl rfl
  constructor
  · rw [h.1]
  · rw [h.2.2]

/-- Claim C5: response extraction returns the fixed placeholder when there
are no candidates, and otherwise the in-order concatenation of every
segment of the first candidate only; in particular two candidates of two
segments each yield only the first candidate segments. -/
theorem claim_C5_response_extraction :
    (∀ response : GResponse, response.candidates = [] →
      extract_text_from_candidates response = "No candidates returned.") ∧
    (∀ (response : GResponse) (c : GCandidate) (rest : List GCandidate),
      response.candidates = c :: rest →
      extract_text_from_candidates response =
        String.join (c.content.parts.map (fun p => p.text))) ∧
    extract_text_from_candidates
      { candidates :=
          [{ content := { parts := [{ text := "a" }, { text := "b" }] } },
           { content := { parts := [{ text := "c" }, { text := "d" }] } }] } = "ab" := by
  refine ⟨?_, ?_, rfl⟩
  · intro response h
    cases response with
    | mk cands =>
      subst h
      rfl
  · intro response c rest h
    cases response with
    | mk cands =>
      subst h
      rfl

/-- Witness for C5: the zero-candidate case and a one-candidate
two-segment case evaluated concretely. -/
theorem claim_C5_response_extraction_witness :
    extract_text_from_candidates { candidates := [] } = "No candidates returned." ∧
    extract_text_from_candidates
      { candidates :=
          [{ content := { parts := [{ text := "x" }, { text := "y" }] } }] } = "xy" := by
  constructor
  · exact claim_C5_response_extraction.1 { candidates := [] } rfl
  · rw [claim_C5_response_extraction.2.1
      { candidates :=
          [{ content := { parts := [{ text := "x" }, { text := "y" }] } }] }
      { content := { parts := [{ text := "x" }, { text := "y" }] } } [] rfl]
    rfl

/-- Claim C9: a backend result with a non-empty candidate list whose first
candidate has no text segments extracts to the empty string, not to the
no-candidates placeholder. -/
theorem claim_C9_empty_first_candidate (response : GResponse) (c : GCandidate)
    (rest : List GCandidate) (h1 : response.candidates = c :: rest)
    (h2 : c.content.parts = []) :
    extract_text_from_candidates response = "" ∧
    extract_text_from_candidates response ≠ "No candidates returned." := by
  cases response with
  | mk cands =>
    subst h1
    constructor
    · show String.join (c.content.parts.map (fun p => p.text)) = ""
      rw [h2]
      rfl
    · show String.join (c.content.parts.map (fun p => p.text)) ≠ "No candidates returned."
      rw [h2]
      decide

/-- Witness for C9: one candidate with an empty segment list extracts to
the empty string. -/
theorem claim_C9_empty_first_candidate_witness :
    extract_text_from_candidates
        { candidates := [{ content := { parts := [] } }] } = "" ∧
    extract_text_from_candidates
        { candidates := [{ content := { parts := [] } }] } ≠ "No candidates returned." :=
  claim_C9_empty_first_candidate { candidates := [{ content := { parts := [] } }] }
    { content := { parts := [] } } [] rfl rfl

/-- Claim C10: an entry event from a cache-missing identity whose stored
document has any status other than pending-contact — including a status of
new or a missing status field, which is defaulted to new — is treated as
registration-complete: the document is cached and the personalized welcome
is sent, with no check that the status equals verified. -/
theorem claim_C10_nonpending_complete (u : TgUser) (st : BotState) (r : UserRec)
    (hcv : cacheGet st.user_cache u.id = none)
    (hf : findOneUser st.users u.id = some r)
    (hs : ¬ r.status.getD ("new") = "pending_contact") :
    start u st =
      { st := { st with user_cache := (u.id, some r) :: st.user_cache },
        replies := [.text (welcomeMsg u.first_name)], logs := [],
        crashed := false, backendCalls := 0, userReads := 1, userInserts := 0 } :=
  start_complete_eq hcv hf hs

/-- Witness for C10: a stored document with a missing status field is
cached and welcomed as registration-complete. -/
theorem claim_C10_nonpending_complete_witness :
    start ada noStatusState =
      { st := { noStatusState with
            user_cache := (42, some adaNoStatusRec) :: noStatusState.user_cache },
        replies := [.text (welcomeMsg ("Ada"))], logs := [],
        crashed := false, backendCalls := 0, userReads := 1, userInserts := 0 } :=
  claim_C10_nonpending_complete ada noStatusState adaNoStatusRec rfl rfl (by decide)

/-- Claim C4: when a contact-share event succeeds (exactly one document
modified), the stored document for that identity is verified with the
phone number and the verification timestamp set, the cache entry is
refreshed from the store, the success confirmation is sent, and every
subsequent entry event for that identity — after any further sequence of
registration-flow events — answers with the personalized welcome from the
cache, performing no store read and no insert. -/
theorem claim_C4_verified_welcome (sender : TgUser) (c : Contact) (st : BotState)
    (hid : c.user_id = sender.id)
    (hm : (updateOne st.users c.user_id (setVerified c.phone_number st.now)).2 = 1) :
    (∃ r, findOneUser (handle_contact sender c st).st.users c.user_id = some r ∧
      r.status = some ("verified") ∧ r.phone_number = some c.phone_number ∧
      r.phone_verified_at = some st.now) ∧
    cacheGet (handle_contact sender c st).st.user_cache c.user_id =
      some (findOneUser (handle_contact sender c st).st.users c.user_id) ∧
    (handle_contact sender c st).replies =
      [.text ("✅ Phone verification successful!\nYou can now access all bot features.")] ∧
    (∀ (evs : List Event) (u : TgUser), u.id = c.user_id →
      start u (runFrom (handle_contact sender c st).st evs) =
        { st := runFrom (handle_contact sender c st).st evs,
          replies := [.text (welcomeMsg u.first_name)], logs := [],
          crashed := false, backendCalls := 0, userReads := 0,
          userInserts := 0 }) := by
  have hid2 : ¬ c.user_id ≠ sender.id := fun hh => hh hid
  have heq := handle_contact_ok_eq hid2 hm
  obtain ⟨r0, hfind0, hfind1⟩ := updateOne_one_find st.users c.user_id
    (setVerified c.phone_number st.now) (fun r => rfl) hm
  refine ⟨⟨setVerified c.phone_number st.now r0, ?_, rfl, rfl, rfl⟩, ?_, ?_, ?_⟩
  · rw [heq]
    exact hfind1
  · rw [heq]
    show cacheGet ((c.user_id,
        findOneUser (updateOne st.users c.user_id
          (setVerified c.phone_number st.now)).1 c.user_id) :: st.user_cache)
        c.user_id =
      some (findOneUser (updateOne st.users c.user_id
        (setVerified c.phone_number st.now)).1 c.user_id)
    rw [cacheGet_cons, if_pos rfl]
  · rw [heq]
  · intro evs u hu
    have hkey : (cacheGet (handle_contact sender c st).st.user_cache u.id).isSome
        = true := by
      rw [heq, hu]
      show (cacheGet ((c.user_id,
          findOneUser (updateOne st.users c.user_id
            (setVerified c.phone_number st.now)).1 c.user_id) :: st.user_cache)
          c.user_id).isSome = true
      rw [cacheGet_cons, if_pos rfl]
      rfl
    obtain ⟨v, hv⟩ := Option.isSome_iff_exists.mp
      (runFrom_cache_isSome evs (handle_contact sender c st).st u.id hkey)
    exact start_cached_eq hv

/-- Witness for C4: after registration and a successful contact share for
identity 42, the next entry event answers the cached welcome with no store
read. -/
theorem claim_C4_verified_welcome_witness :
    start ada (runFrom (handle_contact ada adaContact (run [Event.entry ada])).st []) =
      { st := runFrom (handle_contact ada adaContact (run [Event.entry ada])).st [],
        replies := [.text (welcomeMsg ("Ada"))], logs := [],
        crashed := false, backendCalls := 0, userReads := 0, userInserts := 0 } :=
  (claim_C4_verified_welcome ada adaContact (run [Event.entry ada]) rfl
    (by decide)).2.2.2 [] ada rfl

/-- Claim C6 counterexample: the claim states that every failing
interaction sends an apology (or a specific usage message) and logs the
error.  For a search interaction with a failing backend the handler has no
try/except: it sends nothing and logs nothing (the exception escapes), so
the claim is false at this input. -/
theorem claim_C6_counterexample :
    (handle_websearch errBackend 7 [['q']] initState).replies = [] ∧
    (handle_websearch errBackend 7 [['q']] initState).logs = [] ∧
    (handle_websearch errBackend 7 [['q']] initState).crashed = true :=
  ⟨rfl, rfl, rfl⟩

/-- Claim C6 (amended): failing interactions never write to any store
collection, and the message and file handlers reply as the claim states:
a backend error in the message handler yields the fixed apology and an
error log with no state change; an unsupported attachment yields the fixed
unsupported-type reply with no log and no state change; a file fetch
failure or a vision backend error yields the fixed file apology and an
error log with no state change; an empty search query yields the usage
message with no backend call and no state change; but a search backend
error escapes the handler uncaught — nothing is sent, logged or written. -/
theorem claim_C6_amended_failure_no_write :
    (∀ (b : Backend) (uid : Nat) (m : String) (st : BotState) (e : String),
      b.nlp (chatPrompt m) = .error e →
      generate_and_send_response b uid m st =
        { st := st,
          replies := [.text ("❌ Sorry, I couldn't process your request. Please try again.")],
          logs := [.errorGenerate e], crashed := false, backendCalls := 1,
          userReads := 0, userInserts := 0 }) ∧
    (∀ (tr : Transport) (b : Backend) (uid : Nat) (st : BotState),
      handle_files tr b uid { photo := [], document := none } st =
        { st := st, replies := [.text ("❌ Unsupported file type")], logs := [],
          crashed := false, backendCalls := 0, userReads := 0, userInserts := 0 }) ∧
    (∀ (tr : Transport) (b : Backend) (uid : Nat) (msg : FileMessage) (fid : Nat)
      (st : BotState) (e : String),
      fileIdOf msg = some fid →
      tr.fetch fid = .error e →
      handle_files tr b uid msg st =
        { st := st, replies := [.text ("❌ Failed to analyze file")],
          logs := [.errorFile e], crashed := false, backendCalls := 0,
          userReads := 0, userInserts := 0 }) ∧
    (∀ (tr : Transport) (b : Backend) (uid : Nat) (msg : FileMessage) (fid : Nat)
      (path : String) (data : List Nat) (st : BotState) (e : String),
      fileIdOf msg = some fid →
      tr.fetch fid = .ok (path, data) →
      b.vision ("Analyze and describe this content in detail:")
        ((tr.guessMime path).getD ("application/octet-stream")) data = .error e →
      handle_files tr b uid msg st =
        { st := st, replies := [.text ("❌ Failed to analyze file")],
          logs := [.errorFile e], crashed := false, backendCalls := 1,
          userReads := 0, userInserts := 0 }) ∧
    (∀ (b : Backend) (uid : Nat) (args : List (List Char)) (st : BotState),
      pyJoinSpace args = [] →
      handle_websearch b uid args st =
        { st := st, replies := [.text ("Usage: /websearch <your query here>")],
          logs := [], crashed := false, backendCalls := 0, userReads := 0,
          userInserts := 0 }) ∧
    (∀ (b : Backend) (uid : Nat) (args : List (List Char)) (st : BotState) (e : String),
      ¬ pyJoinSpace args = [] →
      b.nlp (websearchPrompt (pyJoinSpace args)) = .error e →
      handle_websearch b uid args st =
        { st := st, replies := [], logs := [], crashed := true, backendCalls := 1,
          userReads := 0, userInserts := 0 }) := by
  refine ⟨?_, ?_, ?_, ?_, ?_, ?_⟩
  · intro b uid m st e he
    simp only [generate_and_send_response, he]
  · intro tr b uid st
    rfl
  · intro tr b uid msg fid st e hfid hfetch
    simp only [handle_files, hfid, hfetch]
  · intro tr b uid msg fid path data st e hfid hfetch hvis
    simp only [handle_files, hfid, hfetch]
    simp only [hvis]
  · intro b uid args st hq
    exact handle_websearch_usage_eq b uid args st hq
  · intro b uid args st e hne he
    simp only [handle_websearch]
    rw [if_neg hne]
    simp only [he]

/-- Witness for C6 (amended): each failure mode evaluated at concrete
inputs with the always-failing backend and transport. -/
theorem claim_C6_amended_failure_no_write_witness :
    generate_and_send_response errBackend 5 "hi" initState =
      { st := initState,
        replies := [.text ("❌ Sorry, I couldn't process your request. Please try again.")],
        logs := [.errorGenerate ("backend failure")], crashed := false,
        backendCalls := 1, userReads := 0, userInserts := 0 } ∧
    handle_files errTransport errBackend 5 { photo := [3], document := none }
        initState =
      { st := initState, replies := [.text ("❌ Failed to analyze file")],
        logs := [.errorFile ("download failure")], crashed := false,
        backendCalls := 0, userReads := 0, userInserts := 0 } ∧
    handle_files okTransport errBackend 5 { photo := [3], document := none }
        initState =
      { st := initState, replies := [.text ("❌ Failed to analyze file")],
        logs := [.errorFile ("backend failure")], crashed := false,
        backendCalls := 1, userReads := 0, userInserts := 0 } ∧
    handle_websearch errBackend 5 [] initState =
      { st := initState, replies := [.text ("Usage: /websearch <your query here>")],
        logs := [], crashed := false, backendCalls := 0, userReads := 0,
        userInserts := 0 } ∧
    handle_websearch errBackend 5 [['q']] initState =
      { st := initState, replies := [], logs := [], crashed := true,
        backendCalls := 1, userReads := 0, userInserts := 0 } :=
  ⟨claim_C6_amended_failure_no_write.1 errBackend 5 "hi" initState
      ("backend failure") rfl,
   claim_C6_amended_failure_no_write.2.2.1 errTransport errBackend 5
      { photo := [3], document := none } 3 initState ("download failure") rfl rfl,
   claim_C6_amended_failure_no_write.2.2.2.1 okTransport errBackend 5
      { photo := [3], document := none } 3 "/tmp/file_7.jpg" [1, 2, 3] initState
      ("backend failure") rfl rfl rfl,
   claim_C6_amended_failure_no_write.2.2.2.2.1 errBackend 5 [] initState rfl,
   claim_C6_amended_failure_no_write.2.2.2.2.2 errBackend 5 [['q']] initState
      ("backend failure") (by decide) rfl⟩

/-- Claim C7: for every search command message whose arguments (as the
transport derives them: the message text split on whitespace, command
token dropped) join to a whitespace-only string — which, because split
tokens are non-empty and whitespace-free, forces the argument list to be
empty — the handler replies with the usage message, makes no backend call
and writes nothing (the state is returned unchanged). -/
theorem claim_C7_whitespace_search_usage (b : Backend) (uid : Nat)
    (text : List Char) (st : BotState)
    (hws : ∀ ch ∈ pyJoinSpace (contextArgs text), ch.isWhitespace = true) :
    handle_websearch b uid (contextArgs text) st =
      { st := st, replies := [.text ("Usage: /websearch <your query here>")],
        logs := [], crashed := false, backendCalls := 0, userReads := 0,
        userInserts := 0 } := by
  have hargs : contextArgs text = [] :=
    args_nil_of_ws (contextArgs text) (contextArgs_tokens text) hws
  refine handle_websearch_usage_eq b uid (contextArgs text) st ?_
  rw [hargs]
  rfl

/-- Witness for C7: the bare command message produces the usage reply with
no backend call. -/
theorem claim_C7_whitespace_search_usage_witness :
    handle_websearch errBackend 3 (contextArgs ("/websearch".toList)) initState =
      { st := initState,
        replies := [.text ("Usage: /websearch <your query here>")],
        logs := [], crashed := false, backendCalls := 0, userReads := 0,
        userInserts := 0 } :=
  claim_C7_whitespace_search_usage errBackend 3 ("/websearch".toList) initState
    (by decide)

/-- Claim C8: the conversational handlers (message, file, search) neither
read nor write the users collection or the cache: replacing both by any
other values changes nothing in the produced replies, logs, crash status,
backend calls or store writes, and the final state carries the replacement
through untouched.  In particular the behavior is identical whether the
stored status of the user is pending, verified, or no record exists:
verification is advisory for these flows. -/
theorem claim_C8_verification_advisory (b : Backend) (tr : Transport) (uid : Nat)
    (m : String) (msg : FileMessage) (args : List (List Char)) (st : BotState)
    (users2 : List UserRec) (cache2 : List (Nat × Option UserRec)) :
    handle_message b uid m { st with users := users2, user_cache := cache2 } =
      withUC users2 cache2 (handle_message b uid m st) ∧
    handle_files tr b uid msg { st with users := users2, user_cache := cache2 } =
      withUC users2 cache2 (handle_files tr b uid msg st) ∧
    handle_websearch b uid args { st with users := users2, user_cache := cache2 } =
      withUC users2 cache2 (handle_websearch b uid args st) := by
  refine ⟨?_, ?_, ?_⟩
  · cases hn : b.nlp (chatPrompt m) with
    | error e => simp [handle_message, generate_and_send_response, hn, withUC]
    | ok raw => simp [handle_message, generate_and_send_response, hn, withUC]
  · cases hfid : fileIdOf msg with
    | none => simp [handle_files, hfid, withUC]
    | some fid =>
      cases hfetch : tr.fetch fid with
      | error e => simp [handle_files, hfid, hfetch, withUC]
      | ok fd =>
        cases hv : b.vision ("Analyze and describe this content in detail:")
            ((tr.guessMime fd.1).getD ("application/octet-stream")) fd.2 with
        | error e => simp [handle_files, hfid, hfetch, hv, withUC]
        | ok resp => simp [handle_files, hfid, hfetch, hv, withUC]
  · by_cases hq : pyJoinSpace args = []
    · simp [handle_websearch, hq, withUC]
    · cases hn : b.nlp (websearchPrompt (pyJoinSpace args)) with
      | error e => simp [handle_websearch, hq, hn, withUC]
      | ok raw => simp [handle_websearch, hq, hn, withUC]

end Chatbot
